import Mathlib

/-!
Shallow embedding of the italy-visabot appointment checker (src/main.py and
src/v2.py).  The browser, the OCR engine and the network are modelled as
explicit environment values; each Python function the claims mention is
translated into a Lean function over those environments.  `Main.*` embeds
src/main.py, `V2.*` embeds src/v2.py; code shared verbatim by both files is
declared once at top level.
-/

set_option maxRecDepth 8000

/-- String containment, modelling Python's `in` operator on strings: the
needle's character list is an infix of the haystack's. -/
def StrContains (hay s : String) : Prop := s.data <:+: hay.data

instance (hay s : String) : Decidable (StrContains hay s) :=
  List.decidableInfix s.data hay.data

/-- Constant BASE_URL (src/main.py line 24, src/v2.py line 27). -/
def BASE_URL : String := "https://ita-schengen.idata.com.tr/tr"

/-- Constant RETRY_COUNT (src/main.py line 26, src/v2.py line 29). -/
def RETRY_COUNT : Nat := 3

/-- Constant CHECK_INTERVAL, the default normal poll interval in seconds
(src/main.py line 27, src/v2.py line 30). -/
def CHECK_INTERVAL : ℚ := 600

/-- Constant ACCELERATED_CHECK_INTERVAL (src/main.py line 28). -/
def ACCELERATED_CHECK_INTERVAL : ℚ := 120

/-- Constant ERROR_RETRY_INTERVAL (src/main.py line 29, src/v2.py line 31). -/
def ERROR_RETRY_INTERVAL : ℚ := 300

/-- Negative-result phrase tested by `check_availability` in both variants
(src/main.py line 292, src/v2.py line 270). -/
def negativePhrase : String := "Uygun randevu tarihi bulunmamaktadır"

/-- One call of the OCR engine: either it raises internally, or it returns the
recognized text fragments in engine order (the `res[1]` fields of
`reader.readtext`). -/
inductive OcrOutcome where
  | err (msg : String)
  | ok (fragments : List String)

/-- Digit characters aggregated by `extract_six_digit_code`: the fragments are
joined in engine order and filtered with `c.isdigit()` (decimal digits over
the engine's ASCII charset). -/
def aggregateDigits (fragments : List String) : List Char :=
  (String.join fragments).data.filter Char.isDigit

/-- CaptchaSolver.extract_six_digit_code (src/main.py lines 125-147, identical
in src/v2.py lines 115-135): join all fragments, filter to digits, return the
first 6 when at least 6 are present, else None; any internal engine error is
caught and mapped to None. -/
def extract_six_digit_code (o : OcrOutcome) : Option String :=
  match o with
  | .err _ => none
  | .ok fragments =>
    let digits := aggregateDigits fragments
    if 6 ≤ digits.length then some (String.mk (digits.take 6)) else none

/-- Per-target configuration fields used by the availability stage. -/
structure AppointmentConfig where
  telegram_token : String
  telegram_chat_id : String
deriving DecidableEq

/-- A Telegram message handed to NotificationManager.send_telegram_message. -/
structure TelegramMessage where
  token : String
  chat_id : String
  message : String
deriving DecidableEq

/-- Environment for one party-size iteration of `check_availability`: either
some browser call in the iteration raises (with the exception's description),
or the iteration reads this result text from the page. -/
structure IterEnv where
  raised : Option String
  result_text : String

/-- Availability condition of both variants (src/main.py line 292, src/v2.py
line 270): `result_text and negativePhrase not in result_text`. -/
def available_cond (rt : String) : Prop :=
  rt ≠ "" ∧ ¬ StrContains rt negativePhrase

instance (rt : String) : Decidable (available_cond rt) := by
  unfold available_cond; infer_instance

/-- One attempt to read the captcha image `src` attribute: the browser call
either raises, or returns `None` / a string (`some ""` is falsy like `None`). -/
inductive ReadOutcome where
  | raised (msg : String)
  | value (v : Option String)
deriving DecidableEq

/-- Python truthiness of the attribute value. -/
def truthy : Option String → Bool
  | none => false
  | some s => s ≠ ""

/-- The retry loop of `solve_captcha` over a list of attempt indices: keeps
the last read value, breaks on a truthy value, and sleeps 2 seconds inside the
`except` branch when an attempt raises.  Returns the final value of
`captcha_image` together with the number of sleeps performed. -/
def fetchFrom (reads : Nat → ReadOutcome) : List Nat → Option String → Nat →
    Option String × Nat
  | [], cur, sleeps => (cur, sleeps)
  | i :: rest, cur, sleeps =>
    match reads i with
    | .raised _ => fetchFrom reads rest cur (sleeps + 1)
    | .value v => if truthy v then (v, sleeps) else fetchFrom reads rest v sleeps

/-- The `for try_count in range(RETRY_COUNT)` image-fetch loop of
`solve_captcha` (src/main.py lines 185-195, src/v2.py lines 179-188). -/
def fetchCaptchaImage (reads : Nat → ReadOutcome) : Option String × Nat :=
  fetchFrom reads (List.range RETRY_COUNT) none 0

/-- Boolean marker for an attempt that does not produce a usable image:
the read raised, or it returned a falsy value. -/
def attemptFails : ReadOutcome → Bool
  | .raised _ => true
  | .value v => !truthy v

/-- Lifecycle events of the decoded captcha image buffer. -/
inductive BufEv where
  | opened
  | extracted
  | closed
deriving DecidableEq

/-- Environment of one `solve_captcha` call: the three attribute-read
attempts, whether the base64 split/decode/`Image.open` raises, what the OCR
engine does, and whether entering the code / clicking submit raises. -/
structure CaptchaEnv where
  reads : Nat → ReadOutcome
  decodeRaised : Option String
  ocr : OcrOutcome
  submitRaised : Option String

/-- Status component of the main-variant run outcome. -/
inductive Status where
  | success
  | error
deriving DecidableEq

/-- Result of a step that may raise an exception into its caller. -/
inductive StepOutcome (α : Type) where
  | ok (a : α)
  | exn (msg : String)
deriving DecidableEq

namespace Main

/-- Availability record appended by src/main.py `check_availability`:
the error branch (lines 331-338) has no `text` key, the others no `error`
key. -/
structure AvailRecord where
  person_count : Nat
  office_type : String
  available : Bool
  text : Option String
  error : Option String
deriving DecidableEq

/-- The Telegram message body built at src/main.py line 304, written
right-associated so the pieces appear in source order. -/
def notifMessage (person_count : Nat) (office_type result_text : String) : String :=
  toString person_count ++ (" kişi için " ++ (office_type ++
    (" ofiste uygun randevu:\n\n" ++ (result_text ++
      ("\n\nRandevu almak için:\n " ++ BASE_URL)))))

/-- One party-size iteration of src/main.py `check_availability`
(lines 277-338): on an exception, record `{available: False, error: str(e)}`;
otherwise classify the result text, send a notification exactly in the
available case, and append the corresponding record. -/
def checkOne (cfg : AppointmentConfig) (office_type : String) (person_count : Nat)
    (e : IterEnv) : AvailRecord × Option TelegramMessage :=
  match e.raised with
  | some msg =>
    ({ person_count, office_type, available := false, text := none, error := some msg },
     none)
  | none =>
    if available_cond e.result_text then
      ({ person_count, office_type, available := true, text := some e.result_text,
         error := none },
       some { token := cfg.telegram_token, chat_id := cfg.telegram_chat_id,
              message := notifMessage person_count office_type e.result_text })
    else
      ({ person_count, office_type, available := false,
         text := some (if e.result_text = "" then "No result text" else e.result_text),
         error := none },
       none)

/-- The `for person_count in range(1, 5)` loop of `check_availability`,
threading the `results` list, the `found_available` flag and the notifications
sent. -/
def checkSizes (cfg : AppointmentConfig) (office_type : String) (env : Nat → IterEnv) :
    List Nat → List AvailRecord × Bool × List TelegramMessage
  | [] => ([], false, [])
  | pc :: rest =>
    let (r, n) := checkOne cfg office_type pc (env pc)
    let (rs, found, ns) := checkSizes cfg office_type env rest
    (r :: rs, (r.available || found), n.toList ++ ns)

/-- AppointmentChecker.check_availability (src/main.py lines 272-340):
party sizes 1..4 in ascending order; returns the records and the
`found_available` flag, plus the notifications emitted along the way. -/
def check_availability (cfg : AppointmentConfig) (office_type : String)
    (env : Nat → IterEnv) : List AvailRecord × Bool × List TelegramMessage :=
  checkSizes cfg office_type env [1, 2, 3, 4]

/-- AppointmentChecker.solve_captcha (src/main.py lines 180-229): fetch the
image with retries, return False when no truthy image was obtained; then
decode, extract the code, close the buffer immediately after extraction, and
raise (caught by the enclosing `except`, yielding False) when the code is
absent; otherwise type the code and submit.  The second component is the
buffer-event trace. -/
def solve_captcha (env : CaptchaEnv) : Bool × List BufEv :=
  if truthy (fetchCaptchaImage env.reads).1 then
    match env.decodeRaised with
    | some _ => (false, [])
    | none =>
      match extract_six_digit_code env.ocr with
      | none => (false, [.opened, .extracted, .closed])
      | some _ =>
        match env.submitRaised with
        | some _ => (false, [.opened, .extracted, .closed])
        | none => (true, [.opened, .extracted, .closed])
  else (false, [])

/-- Environment of one src/main.py `check_appointments` call: whether
navigation raises, the captcha environment, whether `fill_form` succeeds,
whether re-selecting each office type raises, and the per-office-type
availability environments. -/
structure RunEnv where
  navRaised : Option String
  captcha : CaptchaEnv
  fillOk : Bool
  selectRaised : String → Option String
  avail : String → Nat → IterEnv

/-- Outcome triple returned by src/main.py `check_appointments`. -/
structure RunOutcome where
  summary : String
  status : Status
  found_available : Bool
deriving DecidableEq

/-- The `for office_type in office_types` loop of `check_appointments`
(src/main.py lines 385-398): an exception while re-selecting the office type
escapes to the enclosing `try`; availability results and the flag accumulate
across office types.  Notifications already sent are kept even when a later
office type raises. -/
def officesLoop (cfg : AppointmentConfig) (env : RunEnv) :
    List String → List TelegramMessage × StepOutcome (List AvailRecord × Bool)
  | [] => ([], .ok ([], false))
  | ot :: rest =>
    match env.selectRaised ot with
    | some e => ([], .exn e)
    | none =>
      let (rs, found, ns) := check_availability cfg ot (env.avail ot)
      let (ns2, rest2) := officesLoop cfg env rest
      (ns ++ ns2,
       match rest2 with
       | .exn e => .exn e
       | .ok (rs2, found2) => .ok (rs ++ rs2, found || found2))

/-- AppointmentChecker.check_appointments (src/main.py lines 357-407): the
whole stage sequence runs inside one `try`; stage failures return early with
an error outcome, and any exception is converted to
`"Error checking appointments: " ++ e` with status error and no availability. -/
def check_appointments (cfg : AppointmentConfig) (office_types : List String)
    (env : RunEnv) : RunOutcome × List TelegramMessage :=
  match env.navRaised with
  | some e =>
    ({ summary := "Error checking appointments: " ++ e, status := .error,
       found_available := false }, [])
  | none =>
    if (solve_captcha env.captcha).1 then
      if env.fillOk then
        match officesLoop cfg env office_types with
        | (ns, .exn e) =>
          ({ summary := "Error checking appointments: " ++ e, status := .error,
             found_available := false }, ns)
        | (ns, .ok (_, found)) =>
          ({ summary := "Check completed successfully for " ++
               toString office_types.length ++ " office types",
             status := .success, found_available := found }, ns)
      else
        ({ summary := "Error filling form", status := .error,
           found_available := false }, [])
    else
      ({ summary := "Error solving captcha", status := .error,
         found_available := false }, [])

/-- First exception reaching the `try` of `check_appointments`, as a function
of the environment: navigation, then (captcha and form failures return early
without raising) the office-type re-selection points in order. -/
def loopRaise (env : RunEnv) : List String → Option String
  | [] => none
  | ot :: rest =>
    match env.selectRaised ot with
    | some e => some e
    | none => loopRaise env rest

/-- First uncaught exception of the whole `check_appointments` sequence. -/
def firstRaise (env : RunEnv) (office_types : List String) : Option String :=
  match env.navRaised with
  | some e => some e
  | none =>
    if (solve_captcha env.captcha).1 then
      if env.fillOk then loopRaise env office_types else none
    else none

/-- State of the src/main.py scheduler loop (lines 445-448):
`accelerated_mode` and `retry_backoff` (a Python float, embedded as an exact
rational since only products of the initial 1 with 0.8 arise). -/
structure SchedState where
  accelerated : Bool
  retry_backoff : ℚ
deriving DecidableEq

/-- What one loop iteration observes from `checker.check_appointments`:
either the returned (status, found_available) pair, or an exception caught by
the loop's own `except Exception` handler. -/
inductive LoopEvent where
  | outcome (status : Status) (found : Bool)
  | raised (msg : String)

/-- One iteration of the src/main.py scheduler loop (lines 455-505), returning
the new state and the wait interval slept.  On an outcome the accelerated
flag is updated from `found_available` before the status test (the two guarded
branches at lines 459-476 net to `accelerated := found`); on success the
backoff resets to 1 and the normal or accelerated interval is slept; on error
the wait is `max(ERROR_RETRY_INTERVAL * retry_backoff, 120)` and the backoff
is then multiplied by 0.8; on a caught exception the state is unchanged and
ERROR_RETRY_INTERVAL is slept. -/
def schedStep (interval : ℚ) (st : SchedState) (ev : LoopEvent) : SchedState × ℚ :=
  match ev with
  | .raised _ => (st, ERROR_RETRY_INTERVAL)
  | .outcome status found =>
    let accelerated := if found then true else false
    if status = .success then
      ({ accelerated, retry_backoff := 1 },
       if found then ACCELERATED_CHECK_INTERVAL else interval)
    else
      ({ accelerated, retry_backoff := st.retry_backoff * 0.8 },
       max (ERROR_RETRY_INTERVAL * st.retry_backoff) 120)

end Main

namespace V2

/-- Availability record appended by src/v2.py `check_availability`
(no office-type field). -/
structure AvailRecord where
  person_count : Nat
  available : Bool
  text : Option String
  error : Option String
deriving DecidableEq

/-- The office type selected by src/v2.py `fill_form` via FORM_VALUES
(src/v2.py line 51). -/
def FORM_VALUES_office_type : String := "STANDART"

/-- The Telegram message body built at src/v2.py line 277: it carries the
party size, the raw text and the portal link, but no office type. -/
def notifMessage (person_count : Nat) (result_text : String) : String :=
  toString person_count ++ (" kişi için uygun randevu:\n\n" ++ (result_text ++
    ("\n\nRandevu almak için:\n " ++ BASE_URL)))

/-- One party-size iteration of src/v2.py `check_availability`
(lines 256-294). -/
def checkOne (cfg : AppointmentConfig) (person_count : Nat) (e : IterEnv) :
    AvailRecord × Option TelegramMessage :=
  match e.raised with
  | some msg =>
    ({ person_count, available := false, text := none, error := some msg }, none)
  | none =>
    if available_cond e.result_text then
      ({ person_count, available := true, text := some e.result_text, error := none },
       some { token := cfg.telegram_token, chat_id := cfg.telegram_chat_id,
              message := notifMessage person_count e.result_text })
    else
      ({ person_count, available := false,
         text := some (if e.result_text = "" then "No result text" else e.result_text),
         error := none },
       none)

/-- The `for person_count in range(1, 5)` loop of src/v2.py
`check_availability`. -/
def checkSizes (cfg : AppointmentConfig) (env : Nat → IterEnv) :
    List Nat → List AvailRecord × List TelegramMessage
  | [] => ([], [])
  | pc :: rest =>
    let (r, n) := checkOne cfg pc (env pc)
    let (rs, ns) := checkSizes cfg env rest
    (r :: rs, n.toList ++ ns)

/-- AppointmentChecker.check_availability (src/v2.py lines 252-296): party
sizes 1..4; returns only the records (no any-availability flag). -/
def check_availability (cfg : AppointmentConfig) (env : Nat → IterEnv) :
    List AvailRecord × List TelegramMessage :=
  checkSizes cfg env [1, 2, 3, 4]

/-- AppointmentChecker.solve_captcha (src/v2.py lines 174-219): like the main
variant, but when no truthy image is obtained it raises
"Failed to get captcha image after multiple attempts" to its caller, and the
decoded buffer is never closed on any path. -/
def solve_captcha (env : CaptchaEnv) : StepOutcome Bool × List BufEv :=
  if truthy (fetchCaptchaImage env.reads).1 then
    match env.decodeRaised with
    | some _ => (.ok false, [])
    | none =>
      match extract_six_digit_code env.ocr with
      | none => (.ok false, [.opened, .extracted])
      | some _ =>
        match env.submitRaised with
        | some _ => (.ok false, [.opened, .extracted])
        | none => (.ok true, [.opened, .extracted])
  else (.exn "Failed to get captcha image after multiple attempts", [])

/-- Environment of one src/v2.py `check_appointments` call. -/
structure RunEnv where
  navRaised : Option String
  captcha : CaptchaEnv
  fillOk : Bool
  avail : Nat → IterEnv

/-- AppointmentChecker.check_appointments (src/v2.py lines 298-322): the whole
workflow runs inside one `try`; every exception is caught and mapped to the
plain string `"Check failed: " ++ e`, and both stage failures and success are
also plain strings — the function's return type is just String. -/
def check_appointments (cfg : AppointmentConfig) (env : RunEnv) :
    String × List TelegramMessage :=
  match env.navRaised with
  | some e => ("Check failed: " ++ e, [])
  | none =>
    match solve_captcha env.captcha with
    | (.exn e, _) => ("Check failed: " ++ e, [])
    | (.ok false, _) => ("Captcha solving failed", [])
    | (.ok true, _) =>
      if env.fillOk then
        let (_, ns) := check_availability cfg env.avail
        ("Check completed successfully", ns)
      else ("Form filling failed", [])

/-- First exception reaching the `try` of src/v2.py `check_appointments`. -/
def firstRaise (env : RunEnv) : Option String :=
  match env.navRaised with
  | some e => some e
  | none =>
    match (solve_captcha env.captcha).1 with
    | .exn e => some e
    | .ok _ => none

/-- What one src/v2.py loop iteration observes: the string returned by
`check_appointments`, or an exception caught by the loop's handler. -/
inductive LoopEvent where
  | returned (result : String)
  | raised (msg : String)

/-- One iteration of the src/v2.py scheduler loop (lines 372-389), returning
the new `retry_backoff` and the wait slept: a returned string resets the
backoff to 1 and sleeps the configured interval; a caught exception sleeps
`min(ERROR_RETRY_INTERVAL * retry_backoff, 1800)` and then doubles the
backoff. -/
def schedStep (interval : ℚ) (retry_backoff : ℚ) (ev : LoopEvent) : ℚ × ℚ :=
  match ev with
  | .returned _ => (1, interval)
  | .raised _ => (retry_backoff * 2, min (ERROR_RETRY_INTERVAL * retry_backoff) 1800)

/-- One full src/v2.py loop iteration driven by an actual workflow run:
`check_appointments` is a total String-valued function, so the event is
always `.returned`. -/
def loopIter (cfg : AppointmentConfig) (env : RunEnv) (interval retry_backoff : ℚ) :
    ℚ × ℚ :=
  schedStep interval retry_backoff (.returned (check_appointments cfg env).1)

end V2

theorem strContains_append_left (a : String) {hay s : String} (h : StrContains hay s) :
    StrContains (a ++ hay) s := by
  obtain ⟨u, v, huv⟩ := h
  refine ⟨a.data ++ u, v, ?_⟩
  have hd : (a ++ hay).data = a.data ++ hay.data := rfl
  rw [hd, ← huv]
  simp [List.append_assoc]

theorem strContains_here (s q : String) : StrContains (s ++ q) s :=
  ⟨[], q.data, rfl⟩

theorem strContains_self (s : String) : StrContains s s :=
  ⟨[], [], by simp⟩

/-- C2: for every input, `extract_six_digit_code` returns `none` or a string
of exactly 6 decimal-digit characters; it concatenates the fragments in engine
order, filters to digits, returns the first 6 when at least 6 are present,
returns `none` when fewer than 6 digits are recognized, and maps any internal
engine error to `none` (it never propagates an exception: it is a total
function into `Option String`). -/
theorem C2_extract_six_digit_code :
    (∀ (o : OcrOutcome) (s : String), extract_six_digit_code o = some s →
      s.length = 6 ∧ s.data.all Char.isDigit = true)
    ∧ (∀ msg, extract_six_digit_code (.err msg) = none)
    ∧ (∀ fragments, (aggregateDigits fragments).length < 6 →
        extract_six_digit_code (.ok fragments) = none)
    ∧ (∀ fragments, 6 ≤ (aggregateDigits fragments).length →
        extract_six_digit_code (.ok fragments) =
          some (String.mk ((aggregateDigits fragments).take 6))) := by
  refine ⟨?_, fun _ => rfl, ?_, ?_⟩
  · intro o s h
    cases o with
    | err msg => simp [extract_six_digit_code] at h
    | ok fragments =>
      simp only [extract_six_digit_code] at h
      by_cases h6 : 6 ≤ (aggregateDigits fragments).length
      · rw [if_pos h6] at h
        obtain rfl : String.mk ((aggregateDigits fragments).take 6) = s :=
          Option.some_injective _ h
        constructor
        · show ((aggregateDigits fragments).take 6).length = 6
          rw [List.length_take]
          exact Nat.min_eq_left h6
        · rw [List.all_eq_true]
          intro c hc
          exact List.of_mem_filter (List.take_subset 6 _ hc)
      · rw [if_neg h6] at h
        cases h
  · intro fragments hlt
    simp only [extract_six_digit_code]
    rw [if_neg (by omega)]
  · intro fragments h6
    simp only [extract_six_digit_code]
    rw [if_pos h6]

/-- Witness for C2 at concrete inputs: six aggregate digits across fragments
give the first six in order; four aggregate digits give `none`. -/
theorem C2_extract_six_digit_code_witness :
    extract_six_digit_code (.ok ["a1b2", "3c4d5", "67"]) = some "123456"
    ∧ ("123456" : String).length = 6
    ∧ ("123456" : String).data.all Char.isDigit = true
    ∧ (aggregateDigits ["12", "34"]).length < 6
    ∧ extract_six_digit_code (.ok ["12", "34"]) = none :=
  ⟨by decide,
   (C2_extract_six_digit_code.1 (.ok ["a1b2", "3c4d5", "67"]) "123456" (by decide)).1,
   (C2_extract_six_digit_code.1 (.ok ["a1b2", "3c4d5", "67"]) "123456" (by decide)).2,
   by decide,
   C2_extract_six_digit_code.2.2.1 ["12", "34"] (by decide)⟩

theorem main_checkOne_none (cfg : AppointmentConfig) (ot : String) (pc : Nat)
    {e : IterEnv} (h : e.raised = none) :
    Main.checkOne cfg ot pc e =
      if available_cond e.result_text then
        (⟨pc, ot, true, some e.result_text, none⟩,
         some ⟨cfg.telegram_token, cfg.telegram_chat_id,
               Main.notifMessage pc ot e.result_text⟩)
      else
        (⟨pc, ot, false,
          some (if e.result_text = "" then "No result text" else e.result_text), none⟩,
         none) := by
  unfold Main.checkOne
  rw [h]

theorem v2_checkOne_none (cfg : AppointmentConfig) (pc : Nat)
    {e : IterEnv} (h : e.raised = none) :
    V2.checkOne cfg pc e =
      if available_cond e.result_text then
        (⟨pc, true, some e.result_text, none⟩,
         some ⟨cfg.telegram_token, cfg.telegram_chat_id,
               V2.notifMessage pc e.result_text⟩)
      else
        (⟨pc, false,
          some (if e.result_text = "" then "No result text" else e.result_text), none⟩,
         none) := by
  unfold V2.checkOne
  rw [h]

/-- C1 (amended): for every non-raising party-size iteration, in both
variants the record is classified available exactly when the result text is
non-empty and does not contain the negative phrase, a notification is sent
exactly in the available case, and the message carries the party size, the
raw text and the portal link; the main variant's message also carries the
service type, the v2 variant's message does not mention it. -/
theorem C1_availability_notification :
    (∀ (cfg : AppointmentConfig) (ot : String) (pc : Nat) (e : IterEnv),
      e.raised = none →
      ((Main.checkOne cfg ot pc e).1.available = true ↔
        (e.result_text ≠ "" ∧ ¬ StrContains e.result_text negativePhrase))
      ∧ ((Main.checkOne cfg ot pc e).1.available = true →
          (Main.checkOne cfg ot pc e).2 =
            some ⟨cfg.telegram_token, cfg.telegram_chat_id,
                  Main.notifMessage pc ot e.result_text⟩
          ∧ StrContains (Main.notifMessage pc ot e.result_text) (toString pc)
          ∧ StrContains (Main.notifMessage pc ot e.result_text) ot
          ∧ StrContains (Main.notifMessage pc ot e.result_text) e.result_text
          ∧ StrContains (Main.notifMessage pc ot e.result_text) BASE_URL)
      ∧ ((Main.checkOne cfg ot pc e).1.available = false →
          (Main.checkOne cfg ot pc e).2 = none))
    ∧ (∀ (cfg : AppointmentConfig) (pc : Nat) (e : IterEnv),
      e.raised = none →
      ((V2.checkOne cfg pc e).1.available = true ↔
        (e.result_text ≠ "" ∧ ¬ StrContains e.result_text negativePhrase))
      ∧ ((V2.checkOne cfg pc e).1.available = true →
          (V2.checkOne cfg pc e).2 =
            some ⟨cfg.telegram_token, cfg.telegram_chat_id,
                  V2.notifMessage pc e.result_text⟩
          ∧ StrContains (V2.notifMessage pc e.result_text) (toString pc)
          ∧ StrContains (V2.notifMessage pc e.result_text) e.result_text
          ∧ StrContains (V2.notifMessage pc e.result_text) BASE_URL)
      ∧ ((V2.checkOne cfg pc e).1.available = false →
          (V2.checkOne cfg pc e).2 = none)) := by
  constructor
  · intro cfg ot pc e h
    rw [main_checkOne_none cfg ot pc h]
    by_cases hc : available_cond e.result_text
    · rw [if_pos hc]
      refine ⟨⟨fun _ => hc, fun _ => rfl⟩, fun _ => ⟨rfl, ?_, ?_, ?_, ?_⟩,
        fun hfalse => by simp at hfalse⟩
      · exact strContains_here _ _
      · exact strContains_append_left _ (strContains_append_left _ (strContains_here _ _))
      · exact strContains_append_left _ (strContains_append_left _
          (strContains_append_left _ (strContains_append_left _ (strContains_here _ _))))
      · exact strContains_append_left _ (strContains_append_left _
          (strContains_append_left _ (strContains_append_left _
            (strContains_append_left _ (strContains_append_left _ (strContains_self _))))))
    · rw [if_neg hc]
      exact ⟨⟨fun hfalse => by simp at hfalse, fun hcond => absurd hcond hc⟩,
        fun hfalse => by simp at hfalse, fun _ => rfl⟩
  · intro cfg pc e h
    rw [v2_checkOne_none cfg pc h]
    by_cases hc : available_cond e.result_text
    · rw [if_pos hc]
      refine ⟨⟨fun _ => hc, fun _ => rfl⟩, fun _ => ⟨rfl, ?_, ?_, ?_⟩,
        fun hfalse => by simp at hfalse⟩
      · exact strContains_here _ _
      · exact strContains_append_left _ (strContains_append_left _ (strContains_here _ _))
      · exact strContains_append_left _ (strContains_append_left _
          (strContains_append_left _ (strContains_append_left _ (strContains_self _))))
    · rw [if_neg hc]
      exact ⟨⟨fun hfalse => by simp at hfalse, fun hcond => absurd hcond hc⟩,
        fun hfalse => by simp at hfalse, fun _ => rfl⟩

/-- Witness for C1: a concrete available result text for 2 people at a
STANDART office is classified available and a notification is produced. -/
theorem C1_availability_notification_witness :
    (⟨none, "12.05.2025 için uygun"⟩ : IterEnv).raised = none
    ∧ ((Main.checkOne ⟨"tok", "chat"⟩ "STANDART" 2
          ⟨none, "12.05.2025 için uygun"⟩).1.available = true ↔
        (("12.05.2025 için uygun" : String) ≠ ""
          ∧ ¬ StrContains "12.05.2025 için uygun" negativePhrase)) :=
  ⟨rfl, (C1_availability_notification.1 ⟨"tok", "chat"⟩ "STANDART" 2
    ⟨none, "12.05.2025 için uygun"⟩ rfl).1⟩

/-- Counterexample for C1 as frozen: in the v2 variant an available
classification sends a notification whose message does not contain the
service type in effect (FORM_VALUES office_type, "STANDART"). -/
theorem C1_counterexample :
    (V2.checkOne ⟨"tok", "chat"⟩ 1 ⟨none, "15.05.2025"⟩).1.available = true
    ∧ (V2.checkOne ⟨"tok", "chat"⟩ 1 ⟨none, "15.05.2025"⟩).2 =
        some ⟨"tok", "chat", V2.notifMessage 1 "15.05.2025"⟩
    ∧ ¬ StrContains (V2.notifMessage 1 "15.05.2025") V2.FORM_VALUES_office_type := by
  refine ⟨by decide, by decide, by decide⟩

theorem main_check_availability_eq (cfg : AppointmentConfig) (ot : String)
    (env : Nat → IterEnv) :
    Main.check_availability cfg ot env =
      ([(Main.checkOne cfg ot 1 (env 1)).1, (Main.checkOne cfg ot 2 (env 2)).1,
        (Main.checkOne cfg ot 3 (env 3)).1, (Main.checkOne cfg ot 4 (env 4)).1],
       ((Main.checkOne cfg ot 1 (env 1)).1.available ||
        ((Main.checkOne cfg ot 2 (env 2)).1.available ||
         ((Main.checkOne cfg ot 3 (env 3)).1.available ||
          ((Main.checkOne cfg ot 4 (env 4)).1.available || false)))),
       (Main.checkOne cfg ot 1 (env 1)).2.toList ++
        ((Main.checkOne cfg ot 2 (env 2)).2.toList ++
         ((Main.checkOne cfg ot 3 (env 3)).2.toList ++
          ((Main.checkOne cfg ot 4 (env 4)).2.toList ++ [])))) := rfl

theorem v2_check_availability_eq (cfg : AppointmentConfig) (env : Nat → IterEnv) :
    V2.check_availability cfg env =
      ([(V2.checkOne cfg 1 (env 1)).1, (V2.checkOne cfg 2 (env 2)).1,
        (V2.checkOne cfg 3 (env 3)).1, (V2.checkOne cfg 4 (env 4)).1],
       (V2.checkOne cfg 1 (env 1)).2.toList ++
        ((V2.checkOne cfg 2 (env 2)).2.toList ++
         ((V2.checkOne cfg 3 (env 3)).2.toList ++
          ((V2.checkOne cfg 4 (env 4)).2.toList ++ [])))) := rfl

theorem main_checkOne_raised (cfg : AppointmentConfig) (ot : String) (pc : Nat)
    {e : IterEnv} {msg : String} (h : e.raised = some msg) :
    Main.checkOne cfg ot pc e = (⟨pc, ot, false, none, some msg⟩, none) := by
  unfold Main.checkOne
  rw [h]

theorem v2_checkOne_raised (cfg : AppointmentConfig) (pc : Nat)
    {e : IterEnv} {msg : String} (h : e.raised = some msg) :
    V2.checkOne cfg pc e = (⟨pc, false, none, some msg⟩, none) := by
  unfold V2.checkOne
  rw [h]

theorem main_checkOne_pc (cfg : AppointmentConfig) (ot : String) (pc : Nat)
    (e : IterEnv) : (Main.checkOne cfg ot pc e).1.person_count = pc := by
  cases her : e.raised
  · rw [main_checkOne_none cfg ot pc her]
    split <;> rfl
  · rw [main_checkOne_raised cfg ot pc her]

theorem v2_checkOne_pc (cfg : AppointmentConfig) (pc : Nat) (e : IterEnv) :
    (V2.checkOne cfg pc e).1.person_count = pc := by
  cases her : e.raised
  · rw [v2_checkOne_none cfg pc her]
    split <;> rfl
  · rw [v2_checkOne_raised cfg pc her]

/-- C3: in both variants one availability run over a service type produces
exactly 4 records, for party sizes 1,2,3,4 in ascending order, whatever the
per-iteration exceptions are; a raising iteration is recorded as
`{available: false, error: msg}` in place, and in the main variant the
returned any-availability flag is the boolean OR of the records' available
flags (the v2 variant returns only the records). -/
theorem C3_availability_records :
    (∀ (cfg : AppointmentConfig) (ot : String) (env : Nat → IterEnv),
      (Main.check_availability cfg ot env).1.map Main.AvailRecord.person_count =
        [1, 2, 3, 4]
      ∧ (Main.check_availability cfg ot env).2.1 =
          (Main.check_availability cfg ot env).1.any Main.AvailRecord.available
      ∧ (∀ (pc : Nat) (msg : String), 1 ≤ pc → pc ≤ 4 → (env pc).raised = some msg →
          (Main.check_availability cfg ot env).1.get? (pc - 1) =
            some ⟨pc, ot, false, none, some msg⟩))
    ∧ (∀ (cfg : AppointmentConfig) (env : Nat → IterEnv),
      (V2.check_availability cfg env).1.map V2.AvailRecord.person_count = [1, 2, 3, 4]
      ∧ (∀ (pc : Nat) (msg : String), 1 ≤ pc → pc ≤ 4 → (env pc).raised = some msg →
          (V2.check_availability cfg env).1.get? (pc - 1) =
            some ⟨pc, false, none, some msg⟩)) := by
  constructor
  · intro cfg ot env
    refine ⟨?_, ?_, ?_⟩
    · rw [main_check_availability_eq]
      simp [main_checkOne_pc]
    · rw [main_check_availability_eq]
      simp [List.any]
    · intro pc msg h1 h4 hr
      interval_cases pc <;>
        simp [main_check_availability_eq, main_checkOne_raised cfg ot _ hr]
  · intro cfg env
    refine ⟨?_, ?_⟩
    · rw [v2_check_availability_eq]
      simp [v2_checkOne_pc]
    · intro pc msg h1 h4 hr
      interval_cases pc <;>
        simp [v2_check_availability_eq, v2_checkOne_raised cfg _ hr]

/-- Witness for C3: with a concrete environment whose party-size-2 iteration
raises "boom", the second record is the error record and the flag matches. -/
theorem C3_availability_records_witness :
    (1 : Nat) ≤ 2 ∧ (2 : Nat) ≤ 4
    ∧ (((fun pc => if pc = 2 then ⟨some "boom", ""⟩ else ⟨none, "metin"⟩ :
          Nat → IterEnv) 2).raised = some "boom")
    ∧ (Main.check_availability ⟨"tok", "chat"⟩ "STANDART"
        (fun pc => if pc = 2 then ⟨some "boom", ""⟩ else ⟨none, "metin"⟩)).1.get? (2 - 1) =
      some ⟨2, "STANDART", false, none, some "boom"⟩ :=
  ⟨by decide, by decide, rfl,
   (C3_availability_records.1 ⟨"tok", "chat"⟩ "STANDART"
      (fun pc => if pc = 2 then ⟨some "boom", ""⟩ else ⟨none, "metin"⟩)).2.2
     2 "boom" (by decide) (by decide) rfl⟩

theorem main_officesLoop_cons (cfg : AppointmentConfig) (env : Main.RunEnv)
    (ot : String) (rest : List String) :
    Main.officesLoop cfg env (ot :: rest) =
      match env.selectRaised ot with
      | some e => ([], .exn e)
      | none =>
        ((Main.check_availability cfg ot (env.avail ot)).2.2 ++
           (Main.officesLoop cfg env rest).1,
         match (Main.officesLoop cfg env rest).2 with
         | .exn e => .exn e
         | .ok (rs2, found2) =>
             .ok ((Main.check_availability cfg ot (env.avail ot)).1 ++ rs2,
                  (Main.check_availability cfg ot (env.avail ot)).2.1 || found2)) := rfl

theorem main_officesLoop_exn (cfg : AppointmentConfig) (env : Main.RunEnv) :
    ∀ (ots : List String) (e : String), Main.loopRaise env ots = some e →
      (Main.officesLoop cfg env ots).2 = .exn e := by
  intro ots
  induction ots with
  | nil => intro e h; simp [Main.loopRaise] at h
  | cons ot rest ih =>
    intro e h
    rw [main_officesLoop_cons]
    simp only [Main.loopRaise] at h
    cases hsel : env.selectRaised ot with
    | some e2 =>
      rw [hsel] at h
      obtain rfl : e2 = e := Option.some_injective _ h
      simp
    | none =>
      rw [hsel] at h
      simp only []
      rw [ih e h]

/-- C4: in both variants, whenever the stage sequence raises, the first
uncaught exception is converted into an error outcome carrying its
description; `check_appointments` is a total function of the run environment
in both embeddings, so no fault ever propagates to the scheduler loop. -/
theorem C4_workflow_error_outcome :
    (∀ (cfg : AppointmentConfig) (ots : List String) (env : Main.RunEnv) (e : String),
      Main.firstRaise env ots = some e →
      (Main.check_appointments cfg ots env).1 =
        ⟨"Error checking appointments: " ++ e, .error, false⟩)
    ∧ (∀ (cfg : AppointmentConfig) (env : V2.RunEnv) (e : String),
      V2.firstRaise env = some e →
      (V2.check_appointments cfg env).1 = "Check failed: " ++ e) := by
  constructor
  · intro cfg ots env e h
    unfold Main.firstRaise at h
    unfold Main.check_appointments
    cases hnav : env.navRaised with
    | some e2 =>
      rw [hnav] at h
      obtain rfl : e2 = e := Option.some_injective _ h
      simp
    | none =>
      rw [hnav] at h
      cases hc : (Main.solve_captcha env.captcha).1
      · rw [hc] at h; simp at h
      · rw [hc] at h
        simp only [if_true] at h
        cases hfill : env.fillOk
        · rw [hfill] at h; simp at h
        · rw [hfill] at h
          simp only [if_true] at h
          have h2 := main_officesLoop_exn cfg env ots e h
          rcases hOL : Main.officesLoop cfg env ots with ⟨ns, out⟩
          obtain rfl : out = .exn e := by
            have := h2
            rw [hOL] at this
            exact this
          simp [hc, hfill, hOL]
  · intro cfg env e h
    unfold V2.firstRaise at h
    unfold V2.check_appointments
    cases hnav : env.navRaised with
    | some e2 =>
      rw [hnav] at h
      obtain rfl : e2 = e := Option.some_injective _ h
      simp
    | none =>
      rw [hnav] at h
      rcases hsc : V2.solve_captcha env.captcha with ⟨out, tr⟩
      rw [hsc] at h
      simp only [] at h
      cases out with
      | exn e2 =>
        simp at h
        obtain rfl : e2 = e := h
        simp [hsc]
      | ok b => simp at h

/-- Witness for C4: a navigation exception "net down" yields the
corresponding error outcome in both variants. -/
theorem C4_workflow_error_outcome_witness :
    Main.firstRaise
        ⟨some "net down", ⟨fun _ => .raised "x", none, .ok [], none⟩, true,
         fun _ => none, fun _ _ => ⟨none, ""⟩⟩ ["STANDART"] = some "net down"
    ∧ (Main.check_appointments ⟨"tok", "chat"⟩ ["STANDART"]
        ⟨some "net down", ⟨fun _ => .raised "x", none, .ok [], none⟩, true,
         fun _ => none, fun _ _ => ⟨none, ""⟩⟩).1 =
      ⟨"Error checking appointments: net down", .error, false⟩
    ∧ V2.firstRaise
        ⟨some "net down", ⟨fun _ => .raised "x", none, .ok [], none⟩, true,
         fun _ => ⟨none, ""⟩⟩ = some "net down"
    ∧ (V2.check_appointments ⟨"tok", "chat"⟩
        ⟨some "net down", ⟨fun _ => .raised "x", none, .ok [], none⟩, true,
         fun _ => ⟨none, ""⟩⟩).1 = "Check failed: net down" :=
  ⟨rfl,
   C4_workflow_error_outcome.1 ⟨"tok", "chat"⟩ ["STANDART"] _ "net down" rfl,
   rfl,
   C4_workflow_error_outcome.2 ⟨"tok", "chat"⟩ _ "net down" rfl⟩

theorem main_error_no_found (cfg : AppointmentConfig) (ots : List String)
    (env : Main.RunEnv) :
    (Main.check_appointments cfg ots env).1.status = Status.error →
    (Main.check_appointments cfg ots env).1.found_available = false := by
  unfold Main.check_appointments
  cases hnav : env.navRaised with
  | some e => intro _; rfl
  | none =>
    cases hc : (Main.solve_captcha env.captcha).1
    · intro _; simp [hc]
    · cases hfill : env.fillOk
      · intro _; simp [hc, hfill]
      · rcases hOL : Main.officesLoop cfg env ots with ⟨ns, out⟩
        cases out with
        | ok p =>
          intro hst
          exfalso
          rcases p with ⟨rs2, found2⟩
          simp [hc, hfill, hOL] at hst
        | exn e2 => intro _; simp [hc, hfill, hOL]

/-- C8: in the main variant an error outcome always carries
`found_available = false`; there is no execution path on which an error
outcome reports availability. -/
theorem C8_error_no_availability :
    ∀ (cfg : AppointmentConfig) (ots : List String) (env : Main.RunEnv),
      (Main.check_appointments cfg ots env).1.status = Status.error →
      (Main.check_appointments cfg ots env).1.found_available = false :=
  fun cfg ots env h => main_error_no_found cfg ots env h

/-- Witness for C8: a failing captcha produces an error outcome, and the
theorem yields that its availability flag is false. -/
theorem C8_error_no_availability_witness :
    (Main.check_appointments ⟨"tok", "chat"⟩ ["STANDART"]
        ⟨none, ⟨fun _ => .raised "x", none, .ok [], none⟩, true,
         fun _ => none, fun _ _ => ⟨none, ""⟩⟩).1.status = Status.error
    ∧ (Main.check_appointments ⟨"tok", "chat"⟩ ["STANDART"]
        ⟨none, ⟨fun _ => .raised "x", none, .ok [], none⟩, true,
         fun _ => none, fun _ _ => ⟨none, ""⟩⟩).1.found_available = false :=
  ⟨rfl, C8_error_no_availability ⟨"tok", "chat"⟩ ["STANDART"] _ rfl⟩

theorem main_schedStep_error (interval : ℚ) (st : Main.SchedState) (found : Bool) :
    Main.schedStep interval st (.outcome .error found) =
      (⟨found, st.retry_backoff * 0.8⟩,
       max (ERROR_RETRY_INTERVAL * st.retry_backoff) 120) := by
  cases found <;> rfl

theorem main_schedStep_success (interval : ℚ) (st : Main.SchedState) (found : Bool) :
    Main.schedStep interval st (.outcome .success found) =
      (⟨found, 1⟩, if found then ACCELERATED_CHECK_INTERVAL else interval) := by
  cases found <;> rfl

theorem v2_schedStep_raised (interval retry_backoff : ℚ) (msg : String) :
    V2.schedStep interval retry_backoff (.raised msg) =
      (retry_backoff * 2, min (ERROR_RETRY_INTERVAL * retry_backoff) 1800) := rfl

/-- C5 (amended): in the main variant the error wait equals
`max(ERROR_RETRY_INTERVAL * retry_backoff, 120)` and the multiplier is
multiplied by 0.8 after each error, so consecutive error waits are
monotonically non-increasing (not non-decreasing); in the v2 variant the
error wait equals `min(ERROR_RETRY_INTERVAL * retry_backoff, 1800)` (a cap,
not a floor) and the multiplier doubles, so consecutive error waits are
monotonically non-decreasing; in both variants the multiplier resets to 1 on
the next success. -/
theorem C5_backoff :
    (∀ (interval : ℚ) (st : Main.SchedState) (found : Bool),
      Main.schedStep interval st (.outcome .error found) =
        (⟨found, st.retry_backoff * 0.8⟩,
         max (ERROR_RETRY_INTERVAL * st.retry_backoff) 120))
    ∧ (∀ (interval : ℚ) (st : Main.SchedState) (f f' : Bool),
        0 ≤ st.retry_backoff →
        (Main.schedStep interval
          (Main.schedStep interval st (.outcome .error f)).1 (.outcome .error f')).2 ≤
        (Main.schedStep interval st (.outcome .error f)).2)
    ∧ (∀ (interval : ℚ) (st : Main.SchedState) (found : Bool),
        (Main.schedStep interval st (.outcome .success found)).1.retry_backoff = 1)
    ∧ (∀ (interval retry_backoff : ℚ) (msg : String),
        V2.schedStep interval retry_backoff (.raised msg) =
          (retry_backoff * 2, min (ERROR_RETRY_INTERVAL * retry_backoff) 1800))
    ∧ (∀ (interval retry_backoff : ℚ) (msg msg' : String),
        0 ≤ retry_backoff →
        (V2.schedStep interval retry_backoff (.raised msg)).2 ≤
        (V2.schedStep interval
          (V2.schedStep interval retry_backoff (.raised msg)).1 (.raised msg')).2)
    ∧ (∀ (interval retry_backoff : ℚ) (result : String),
        (V2.schedStep interval retry_backoff (.returned result)).1 = 1) := by
  refine ⟨main_schedStep_error, ?_, ?_, v2_schedStep_raised, ?_, fun _ _ _ => rfl⟩
  · intro interval st f f' hb
    rw [main_schedStep_error, main_schedStep_error]
    simp only []
    have h1 : ERROR_RETRY_INTERVAL * (st.retry_backoff * 0.8) ≤
        ERROR_RETRY_INTERVAL * st.retry_backoff := by
      unfold ERROR_RETRY_INTERVAL
      nlinarith
    exact max_le_max h1 le_rfl
  · intro interval st found
    rw [main_schedStep_success]
  · intro interval retry_backoff msg msg' hb
    rw [v2_schedStep_raised]
    simp only []
    rw [v2_schedStep_raised]
    have h1 : ERROR_RETRY_INTERVAL * retry_backoff ≤
        ERROR_RETRY_INTERVAL * (retry_backoff * 2) := by
      unfold ERROR_RETRY_INTERVAL
      nlinarith
    exact min_le_min h1 le_rfl

/-- Witness for C5 at concrete inputs: starting from backoff 1 the main
variant's consecutive error waits satisfy the non-increasing bound, and the
v2 variant's the non-decreasing one. -/
theorem C5_backoff_witness :
    (0 : ℚ) ≤ (⟨false, 1⟩ : Main.SchedState).retry_backoff
    ∧ (Main.schedStep 600
        (Main.schedStep 600 ⟨false, 1⟩ (.outcome .error false)).1
        (.outcome .error false)).2 ≤
      (Main.schedStep 600 ⟨false, 1⟩ (.outcome .error false)).2
    ∧ (V2.schedStep 600 1 (.raised "x")).2 ≤
      (V2.schedStep 600 (V2.schedStep 600 1 (.raised "x")).1 (.raised "y")).2 :=
  ⟨by norm_num,
   C5_backoff.2.1 600 ⟨false, 1⟩ false false (by norm_num),
   C5_backoff.2.2.2.2.1 600 1 "x" "y" (by norm_num)⟩

/-- Counterexample for C5 as frozen: in the main variant, starting from the
initial multiplier 1, the first error wait is 300 and the second is 240 — the
wait sequence across consecutive errors strictly decreases, refuting the
claimed monotone non-decrease. -/
theorem C5_counterexample :
    (Main.schedStep CHECK_INTERVAL ⟨false, 1⟩ (.outcome .error false)).2 = 300
    ∧ (Main.schedStep CHECK_INTERVAL
        (Main.schedStep CHECK_INTERVAL ⟨false, 1⟩ (.outcome .error false)).1
        (.outcome .error false)).2 = 240
    ∧ (240 : ℚ) < 300 := by
  rw [main_schedStep_error]
  simp only []
  rw [main_schedStep_error]
  refine ⟨?_, ?_, by norm_num⟩
  · unfold ERROR_RETRY_INTERVAL
    rw [max_eq_left (by norm_num)]
    norm_num
  · unfold ERROR_RETRY_INTERVAL
    rw [max_eq_left (by norm_num)]
    norm_num

/-- C6 (amended): on every outcome event — success or error — the scheduler
sets the accelerated flag to the outcome's any-availability value, so the
normal-to-accelerated transition happens exactly on a success with
availability (error outcomes always carry availability false), but the
accelerated-to-normal transition happens on any outcome without availability,
including error outcomes; the flag is unchanged only when the loop's own
exception handler catches a raised exception. -/
theorem C6_accelerated_mode :
    (∀ (interval : ℚ) (st : Main.SchedState) (status : Status) (found : Bool),
      (Main.schedStep interval st (.outcome status found)).1.accelerated = found)
    ∧ (∀ (interval : ℚ) (st : Main.SchedState) (msg : String),
      (Main.schedStep interval st (.raised msg)).1.accelerated = st.accelerated)
    ∧ (∀ (cfg : AppointmentConfig) (ots : List String) (env : Main.RunEnv)
        (interval : ℚ) (st : Main.SchedState),
      (Main.check_appointments cfg ots env).1.status = Status.error →
      (Main.schedStep interval st
        (.outcome (Main.check_appointments cfg ots env).1.status
          (Main.check_appointments cfg ots env).1.found_available)).1.accelerated =
        false) := by
  refine ⟨?_, fun _ _ _ => rfl, ?_⟩
  · intro interval st status found
    cases status <;> cases found <;> rfl
  · intro cfg ots env interval st hst
    rw [main_error_no_found cfg ots env hst, hst]
    rfl

/-- Witness for C6: a concrete error outcome from a failing captcha drives
the accelerated flag to false from an accelerated state. -/
theorem C6_accelerated_mode_witness :
    (Main.check_appointments ⟨"tok", "chat"⟩ ["STANDART"]
        ⟨none, ⟨fun _ => .raised "x", none, .ok [], none⟩, true,
         fun _ => none, fun _ _ => ⟨none, ""⟩⟩).1.status = Status.error
    ∧ (Main.schedStep 600 ⟨true, 1⟩
        (.outcome
          (Main.check_appointments ⟨"tok", "chat"⟩ ["STANDART"]
            ⟨none, ⟨fun _ => .raised "x", none, .ok [], none⟩, true,
             fun _ => none, fun _ _ => ⟨none, ""⟩⟩).1.status
          (Main.check_appointments ⟨"tok", "chat"⟩ ["STANDART"]
            ⟨none, ⟨fun _ => .raised "x", none, .ok [], none⟩, true,
             fun _ => none, fun _ _ => ⟨none, ""⟩⟩).1.found_available)).1.accelerated =
      false :=
  ⟨rfl,
   C6_accelerated_mode.2.2 ⟨"tok", "chat"⟩ ["STANDART"] _ 600 ⟨true, 1⟩ rfl⟩

/-- Counterexample for C6 as frozen: in the accelerated state, an error
outcome (which carries availability false) changes the flag back to normal —
the claim that the flag never changes on an error outcome is false. -/
theorem C6_counterexample :
    (⟨true, 1⟩ : Main.SchedState).accelerated = true
    ∧ (Main.schedStep CHECK_INTERVAL ⟨true, 1⟩
        (.outcome .error false)).1.accelerated = false := ⟨rfl, rfl⟩

theorem fetchFrom_cons_raised {reads : Nat → ReadOutcome} {i : Nat} {msg : String}
    (h : reads i = .raised msg) (rest : List Nat) (cur : Option String) (sleeps : Nat) :
    fetchFrom reads (i :: rest) cur sleeps = fetchFrom reads rest cur (sleeps + 1) := by
  rw [fetchFrom, h]

theorem fetchFrom_cons_value {reads : Nat → ReadOutcome} {i : Nat} {v : Option String}
    (h : reads i = .value v) (rest : List Nat) (cur : Option String) (sleeps : Nat) :
    fetchFrom reads (i :: rest) cur sleeps =
      if truthy v then (v, sleeps) else fetchFrom reads rest v sleeps := by
  rw [fetchFrom, h]

theorem fetchFrom_congr (reads reads' : Nat → ReadOutcome) :
    ∀ (l : List Nat) (cur : Option String) (sleeps : Nat),
      (∀ i ∈ l, reads i = reads' i) →
      fetchFrom reads l cur sleeps = fetchFrom reads' l cur sleeps := by
  intro l
  induction l with
  | nil => intro cur sleeps _; rfl
  | cons i rest ih =>
    intro cur sleeps h
    have hi : reads i = reads' i := h i (List.mem_cons_self i rest)
    have hrest : ∀ j ∈ rest, reads j = reads' j :=
      fun j hj => h j (List.mem_cons_of_mem i hj)
    cases hri : reads' i with
    | raised msg =>
      rw [fetchFrom_cons_raised (hi.trans hri), fetchFrom_cons_raised hri]
      exact ih cur (sleeps + 1) hrest
    | value v =>
      rw [fetchFrom_cons_value (hi.trans hri), fetchFrom_cons_value hri]
      by_cases hv : truthy v = true
      · rw [if_pos hv, if_pos hv]
      · rw [if_neg hv, if_neg hv]
        exact ih v sleeps hrest

theorem fetchFrom_all_fail (reads : Nat → ReadOutcome) :
    ∀ (l : List Nat) (cur : Option String) (sleeps : Nat),
      (∀ i ∈ l, attemptFails (reads i) = true) → truthy cur = false →
      truthy (fetchFrom reads l cur sleeps).1 = false := by
  intro l
  induction l with
  | nil => intro cur sleeps _ hcur; exact hcur
  | cons i rest ih =>
    intro cur sleeps h hcur
    have hi : attemptFails (reads i) = true := h i (List.mem_cons_self i rest)
    have hrest : ∀ j ∈ rest, attemptFails (reads j) = true :=
      fun j hj => h j (List.mem_cons_of_mem i hj)
    cases hr : reads i with
    | raised msg =>
      rw [fetchFrom_cons_raised hr]
      exact ih cur (sleeps + 1) hrest hcur
    | value v =>
      rw [hr] at hi
      have hv : truthy v = false := by
        simpa [attemptFails] using hi
      rw [fetchFrom_cons_value hr, hv]
      simp only [Bool.false_eq_true, if_false]
      exact ih v sleeps hrest hv

theorem main_solve_captcha_no_image {env : CaptchaEnv}
    (h : truthy (fetchCaptchaImage env.reads).1 = false) :
    Main.solve_captcha env = (false, []) := by
  unfold Main.solve_captcha
  rw [h]
  simp

theorem v2_solve_captcha_no_image {env : CaptchaEnv}
    (h : truthy (fetchCaptchaImage env.reads).1 = false) :
    V2.solve_captcha env =
      (.exn "Failed to get captcha image after multiple attempts", []) := by
  unfold V2.solve_captcha
  rw [h]
  simp

theorem main_solve_captcha_absent {env : CaptchaEnv}
    (hd : env.decodeRaised = none) (ho : extract_six_digit_code env.ocr = none) :
    (Main.solve_captcha env).1 = false := by
  unfold Main.solve_captcha
  by_cases ht : truthy (fetchCaptchaImage env.reads).1 = true
  · rw [ht]
    simp [hd, ho]
  · rw [Bool.not_eq_true] at ht
    rw [ht]
    simp

theorem v2_solve_captcha_absent {env : CaptchaEnv}
    (hd : env.decodeRaised = none) (ho : extract_six_digit_code env.ocr = none) :
    (V2.solve_captcha env).1 ≠ .ok true := by
  unfold V2.solve_captcha
  by_cases ht : truthy (fetchCaptchaImage env.reads).1 = true
  · rw [ht]
    simp [hd, ho]
  · rw [Bool.not_eq_true] at ht
    rw [ht]
    simp

theorem main_check_appointments_captcha_fail (cfg : AppointmentConfig)
    (ots : List String) {env : Main.RunEnv} (hnav : env.navRaised = none)
    (hc : (Main.solve_captcha env.captcha).1 = false) :
    (Main.check_appointments cfg ots env).1 =
      ⟨"Error solving captcha", .error, false⟩ := by
  unfold Main.check_appointments
  rw [hnav, hc]
  simp

theorem v2_check_appointments_exn (cfg : AppointmentConfig) {env : V2.RunEnv}
    {e : String} (hnav : env.navRaised = none)
    (hc : (V2.solve_captcha env.captcha).1 = .exn e) :
    (V2.check_appointments cfg env).1 = "Check failed: " ++ e := by
  unfold V2.check_appointments
  rw [hnav]
  rcases hsc : V2.solve_captcha env.captcha with ⟨out, tr⟩
  rw [hsc] at hc
  simp only [] at hc
  subst hc
  simp

/-- C7 (amended): the captcha stage reads the image source at most 3 times
(the fetch result depends only on attempts 0,1,2), sleeping after each
attempt that raises; when all 3 attempts fail the fetch yields no image, the
stage reports failure in both variants (main returns False, v2 raises), as it
does when recognition returns absent, and the run's outcome reports the
failure; in the main variant the scheduler then waits the error interval
`max(ERROR_RETRY_INTERVAL * retry_backoff, 120)`, but in the v2 variant the
failure comes back as a plain string and the scheduler waits the configured
normal interval. -/
theorem C7_captcha_stage :
    (∀ (reads reads' : Nat → ReadOutcome),
      (∀ i, i < RETRY_COUNT → reads i = reads' i) →
      fetchCaptchaImage reads = fetchCaptchaImage reads')
    ∧ (∀ reads : Nat → ReadOutcome,
      (∀ i, i < RETRY_COUNT → ∃ msg, reads i = .raised msg) →
      fetchCaptchaImage reads = (none, 3))
    ∧ (∀ env : CaptchaEnv,
      (∀ i, i < RETRY_COUNT → attemptFails (env.reads i) = true) →
      (Main.solve_captcha env).1 = false
      ∧ (V2.solve_captcha env).1 = .exn "Failed to get captcha image after multiple attempts")
    ∧ (∀ env : CaptchaEnv, env.decodeRaised = none →
      extract_six_digit_code env.ocr = none →
      (Main.solve_captcha env).1 = false ∧ (V2.solve_captcha env).1 ≠ .ok true)
    ∧ (∀ (cfg : AppointmentConfig) (ots : List String) (env : Main.RunEnv),
      env.navRaised = none → (Main.solve_captcha env.captcha).1 = false →
      (Main.check_appointments cfg ots env).1 =
        ⟨"Error solving captcha", .error, false⟩)
    ∧ (∀ (interval : ℚ) (st : Main.SchedState) (found : Bool),
      (Main.schedStep interval st (.outcome .error found)).2 =
        max (ERROR_RETRY_INTERVAL * st.retry_backoff) 120)
    ∧ (∀ (cfg : AppointmentConfig) (env : V2.RunEnv) (e : String),
      env.navRaised = none → (V2.solve_captcha env.captcha).1 = .exn e →
      (V2.check_appointments cfg env).1 = "Check failed: " ++ e
      ∧ ∀ (interval retry_backoff : ℚ),
          (V2.loopIter cfg env interval retry_backoff).2 = interval) := by
  refine ⟨?_, ?_, ?_, ?_, ?_, ?_, ?_⟩
  · intro reads reads' h
    unfold fetchCaptchaImage
    exact fetchFrom_congr reads reads' (List.range RETRY_COUNT) none 0
      (fun i hi => h i (List.mem_range.mp hi))
  · intro reads h
    obtain ⟨m0, h0⟩ := h 0 (by norm_num [RETRY_COUNT])
    obtain ⟨m1, h1⟩ := h 1 (by norm_num [RETRY_COUNT])
    obtain ⟨m2, h2⟩ := h 2 (by norm_num [RETRY_COUNT])
    show fetchFrom reads (List.range RETRY_COUNT) none 0 = (none, 3)
    have hr : List.range RETRY_COUNT = [0, 1, 2] := by decide
    rw [hr, fetchFrom_cons_raised h0, fetchFrom_cons_raised h1,
      fetchFrom_cons_raised h2]
    rfl
  · intro env h
    have hf : truthy (fetchCaptchaImage env.reads).1 = false := by
      unfold fetchCaptchaImage
      exact fetchFrom_all_fail env.reads (List.range RETRY_COUNT) none 0
        (fun i hi => h i (List.mem_range.mp hi)) rfl
    constructor
    · rw [main_solve_captcha_no_image hf]
    · rw [v2_solve_captcha_no_image hf]
  · intro env hd ho
    exact ⟨main_solve_captcha_absent hd ho, v2_solve_captcha_absent hd ho⟩
  · intro cfg ots env hnav hc
    exact main_check_appointments_captcha_fail cfg ots hnav hc
  · intro interval st found
    rw [main_schedStep_error]
  · intro cfg env e hnav hc
    exact ⟨v2_check_appointments_exn cfg hnav hc, fun _ _ => rfl⟩

/-- Witness for C7: with all three reads raising "timeout", the fetch yields
no image after 3 sleeps, both stages fail, the main run reports an error
outcome whose scheduler wait is the error-interval formula, and the v2 run
reports a failure string followed by the normal interval. -/
theorem C7_captcha_stage_witness :
    fetchCaptchaImage (fun _ => .raised "timeout") = (none, 3)
    ∧ (Main.solve_captcha ⟨fun _ => .raised "timeout", none, .ok [], none⟩).1 = false
    ∧ (Main.check_appointments ⟨"tok", "chat"⟩ ["STANDART"]
        ⟨none, ⟨fun _ => .raised "timeout", none, .ok [], none⟩, true,
         fun _ => none, fun _ _ => ⟨none, ""⟩⟩).1 =
      ⟨"Error solving captcha", .error, false⟩
    ∧ (Main.schedStep 600 ⟨false, 1⟩ (.outcome .error false)).2 =
        max (ERROR_RETRY_INTERVAL * (⟨false, 1⟩ : Main.SchedState).retry_backoff) 120
    ∧ (V2.check_appointments ⟨"tok", "chat"⟩
        ⟨none, ⟨fun _ => .raised "timeout", none, .ok [], none⟩, true,
         fun _ => ⟨none, ""⟩⟩).1 =
      "Check failed: " ++ "Failed to get captcha image after multiple attempts" :=
  ⟨C7_captcha_stage.2.1 (fun _ => .raised "timeout") (fun _ _ => ⟨"timeout", rfl⟩),
   (C7_captcha_stage.2.2.1 ⟨fun _ => .raised "timeout", none, .ok [], none⟩
      (fun _ _ => rfl)).1,
   C7_captcha_stage.2.2.2.2.1 ⟨"tok", "chat"⟩ ["STANDART"]
     ⟨none, ⟨fun _ => .raised "timeout", none, .ok [], none⟩, true,
      fun _ => none, fun _ _ => ⟨none, ""⟩⟩ rfl
     (C7_captcha_stage.2.2.1 ⟨fun _ => .raised "timeout", none, .ok [], none⟩
        (fun _ _ => rfl)).1,
   C7_captcha_stage.2.2.2.2.2.1 600 ⟨false, 1⟩ false,
   (C7_captcha_stage.2.2.2.2.2.2 ⟨"tok", "chat"⟩
      ⟨none, ⟨fun _ => .raised "timeout", none, .ok [], none⟩, true,
       fun _ => ⟨none, ""⟩⟩ "Failed to get captcha image after multiple attempts" rfl
      (C7_captcha_stage.2.2.1 ⟨fun _ => .raised "timeout", none, .ok [], none⟩
         (fun _ _ => rfl)).2).1⟩

/-- Counterexample for C7 as frozen: after a captcha failure the v2 scheduler
does not wait an error interval — at backoff 1 the error-interval wait would
be 300 seconds, but the loop waits the configured 600-second normal interval,
because the failure comes back as an ordinary string. -/
theorem C7_counterexample :
    (V2.check_appointments ⟨"tok", "chat"⟩
        ⟨none, ⟨fun _ => .raised "timeout", none, .ok [], none⟩, true,
         fun _ => ⟨none, ""⟩⟩).1 =
      "Check failed: Failed to get captcha image after multiple attempts"
    ∧ (V2.loopIter ⟨"tok", "chat"⟩
        ⟨none, ⟨fun _ => .raised "timeout", none, .ok [], none⟩, true,
         fun _ => ⟨none, ""⟩⟩ 600 1).2 = 600
    ∧ min (ERROR_RETRY_INTERVAL * 1) 1800 = (300 : ℚ)
    ∧ (600 : ℚ) ≠ min (ERROR_RETRY_INTERVAL * 1) 1800 := by
  refine ⟨rfl, rfl, ?_, ?_⟩
  · unfold ERROR_RETRY_INTERVAL
    rw [min_eq_left (by norm_num)]
    norm_num
  · unfold ERROR_RETRY_INTERVAL
    rw [min_eq_left (by norm_num)]
    norm_num

/-- C9 (amended): in the main variant, on every path of `solve_captcha` the
decoded buffer is either never created (no image, or the decode raises before
`Image.open` completes) or it is closed immediately after code extraction —
including the path where recognition returns absent; in the v2 variant the
decoded buffer is never explicitly closed on any path (it is left to garbage
collection). -/
theorem C9_buffer_release :
    (∀ env : CaptchaEnv,
      (Main.solve_captcha env).2 = []
      ∨ (Main.solve_captcha env).2 = [.opened, .extracted, .closed])
    ∧ (∀ env : CaptchaEnv, BufEv.closed ∉ (V2.solve_captcha env).2) := by
  constructor
  · intro env
    rcases hd : env.decodeRaised with _ | d <;>
      rcases he : extract_six_digit_code env.ocr with _ | c <;>
      rcases hs : env.submitRaised with _ | s <;>
      by_cases ht : truthy (fetchCaptchaImage env.reads).1 <;>
      simp [Main.solve_captcha, hd, he, hs, ht]
  · intro env
    rcases hd : env.decodeRaised with _ | d <;>
      rcases he : extract_six_digit_code env.ocr with _ | c <;>
      rcases hs : env.submitRaised with _ | s <;>
      by_cases ht : truthy (fetchCaptchaImage env.reads).1 <;>
      simp [V2.solve_captcha, hd, he, hs, ht]

/-- Witness for C9 at a concrete environment: a successfully decoded image
whose recognition returns absent still closes the buffer in the main
variant. -/
theorem C9_buffer_release_witness :
    (Main.solve_captcha
        ⟨fun _ => .value (some "data:image/png;base64,AAAA"), none, .ok ["12"], none⟩).2 = []
    ∨ (Main.solve_captcha
        ⟨fun _ => .value (some "data:image/png;base64,AAAA"), none, .ok ["12"], none⟩).2 =
      [.opened, .extracted, .closed] :=
  C9_buffer_release.1
    ⟨fun _ => .value (some "data:image/png;base64,AAAA"), none, .ok ["12"], none⟩

/-- Counterexample for C9 as frozen: in the v2 variant a decoded buffer whose
recognition returns absent is opened and extracted from but never closed. -/
theorem C9_counterexample :
    V2.solve_captcha
        ⟨fun _ => .value (some "data:image/png;base64,AAAA"), none, .ok ["12"], none⟩ =
      (.ok false, [.opened, .extracted])
    ∧ BufEv.opened ∈
        (V2.solve_captcha
          ⟨fun _ => .value (some "data:image/png;base64,AAAA"), none, .ok ["12"], none⟩).2
    ∧ BufEv.closed ∉
        (V2.solve_captcha
          ⟨fun _ => .value (some "data:image/png;base64,AAAA"), none, .ok ["12"], none⟩).2 := by
  refine ⟨by decide, by decide, by decide⟩

/-- C10: the v2 variant's `check_appointments` is a total String-valued
function of the run environment — every workflow exception is caught and
mapped to a failure string — so for every run, succeeded or failed, the
scheduler loop takes the `.returned` path: the backoff resets to 1 and the
wait is the configured normal interval; the error-backoff branch is
unreachable for workflow failures. -/
theorem C10_v2_normal_interval :
    ∀ (cfg : AppointmentConfig) (env : V2.RunEnv) (interval retry_backoff : ℚ),
      V2.loopIter cfg env interval retry_backoff = (1, interval)
      ∧ (∀ e, V2.firstRaise env = some e →
          (V2.check_appointments cfg env).1 = "Check failed: " ++ e
          ∧ V2.loopIter cfg env interval retry_backoff = (1, interval)) := by
  intro cfg env interval retry_backoff
  refine ⟨rfl, fun e he => ⟨?_, rfl⟩⟩
  unfold V2.firstRaise at he
  cases hnav : env.navRaised with
  | some e2 =>
    rw [hnav] at he
    obtain rfl : e2 = e := Option.some_injective _ he
    unfold V2.check_appointments
    rw [hnav]
  | none =>
    rw [hnav] at he
    cases hsc : (V2.solve_captcha env.captcha).1 with
    | ok b2 => rw [hsc] at he; simp at he
    | exn e2 =>
      rw [hsc] at he
      simp at he
      subst he
      exact v2_check_appointments_exn cfg hnav hsc

/-- Witness for C10: even a run whose captcha stage raises is followed by the
normal interval with the backoff reset. -/
theorem C10_v2_normal_interval_witness :
    V2.firstRaise
        ⟨none, ⟨fun _ => .raised "timeout", none, .ok [], none⟩, true,
         fun _ => ⟨none, ""⟩⟩ =
      some "Failed to get captcha image after multiple attempts"
    ∧ (V2.check_appointments ⟨"tok", "chat"⟩
        ⟨none, ⟨fun _ => .raised "timeout", none, .ok [], none⟩, true,
         fun _ => ⟨none, ""⟩⟩).1 =
      "Check failed: " ++ "Failed to get captcha image after multiple attempts"
    ∧ V2.loopIter ⟨"tok", "chat"⟩
        ⟨none, ⟨fun _ => .raised "timeout", none, .ok [], none⟩, true,
         fun _ => ⟨none, ""⟩⟩ 600 1 = (1, 600) :=
  ⟨rfl,
   ((C10_v2_normal_interval ⟨"tok", "chat"⟩
      ⟨none, ⟨fun _ => .raised "timeout", none, .ok [], none⟩, true,
       fun _ => ⟨none, ""⟩⟩ 600 1).2
     "Failed to get captcha image after multiple attempts" rfl).1,
   (C10_v2_normal_interval ⟨"tok", "chat"⟩
      ⟨none, ⟨fun _ => .raised "timeout", none, .ok [], none⟩, true,
       fun _ => ⟨none, ""⟩⟩ 600 1).1⟩
